import Mathlib

/-!
Verification development for the jmp directory-bookmark utility
(src/jmp.py).  The core of the program is embedded shallowly:

* the jump table (a Python dict from tag to JmpStore) becomes an
  association list with dict semantics (`tableFind`, `tableInsert`,
  `tableDelete`, `bumpUsed`);
* the OS calls `os.path.expanduser`, `os.path.expandvars`,
  `os.path.abspath` and `os.path.isdir` are opaque to the program and
  become function parameters `eu`, `ev`, `abspath`, `isdir`;
* `os.path.sep` is the POSIX separator `/`; Python's
  `str.split(os.path.sep)` and `os.path.sep.join` become `splitPath`
  and `joinPath`;
* Python exceptions that the code can raise and does not catch are made
  explicit: fallible operations return `Except JmpErr _`, and an
  `Except.error` value models an exception propagating out of the
  function (`main` installs no handler, so such an exception reaches the
  process boundary);
* the unbounded recursion of `JmpBackend.expand` is embedded with a
  fuel parameter: `fuel` bounds the number of expansion steps, and
  `JmpErr.recursionError` models the Python interpreter's
  `RecursionError` (equivalently, nontermination: a computation that
  fails for every fuel value never completes);
* `pickle.dump` / `pickle.load` are external library calls; they are
  modelled by a concrete executable codec (`pickleDump`, `pickleLoad`)
  that mirrors pickle's observable contract: serialization of every
  field of every entry, `EOFError` on an empty or truncated stream,
  `UnpicklingError` on malformed data.  `FileState` models the
  persisted file (present with given bytes, or absent).
-/

namespace Jmp

/-- JmpBackend.USER_FLAG = 1 << 0 (src/jmp.py line 129). -/
def USER_FLAG : Nat := 1

/-- JmpBackend.TAG_FLAG = 1 << 1 (src/jmp.py line 130). -/
def TAG_FLAG : Nat := 2

/-- JmpBackend.ENV_FLAG = 1 << 2 (src/jmp.py line 131). -/
def ENV_FLAG : Nat := 4

/-- CURRENT_VERSION = 5 (src/jmp.py line 22). -/
def CURRENT_VERSION : Nat := 5

/-- The record stored for one tag: class JmpStore (src/jmp.py lines
110-122).  Its constructor sets version to CURRENT_VERSION, keeps the
given flags and target, and sets used to 0. -/
structure JmpStore where
  version : Nat
  flags : Nat
  target : String
  used : Nat
deriving Repr, DecidableEq

/-- The jump table `self.jmp_table`: a Python dict from tag to JmpStore,
embedded as an association list in dict insertion order with unique
keys maintained by `tableInsert`. -/
def JmpTable := List (String × JmpStore)
deriving Repr, DecidableEq

/-- Dict membership / indexing: `tag in self.jmp_table` and
`self.jmp_table[tag]`. -/
def tableFind (tag : String) : JmpTable → Option JmpStore
  | [] => none
  | (t, e) :: rest => if t = tag then some e else tableFind tag rest

/-- Dict assignment `self.jmp_table[tag] = e`: replaces the entry in
place if the key exists (Python dicts keep the original position),
otherwise appends it. -/
def tableInsert (tag : String) (e : JmpStore) : JmpTable → JmpTable
  | [] => [(tag, e)]
  | (t, e') :: rest =>
      if t = tag then (t, e) :: rest else (t, e') :: tableInsert tag e rest

/-- Dict removal `self.jmp_table.pop(tag)` on a present key. -/
def tableDelete (tag : String) : JmpTable → JmpTable
  | [] => []
  | (t, e) :: rest => if t = tag then rest else (t, e) :: tableDelete tag rest

/-- `self.jmp_table[tag].used += 1` (src/jmp.py line 350). -/
def bumpUsed (tag : String) : JmpTable → JmpTable
  | [] => []
  | (t, e) :: rest =>
      if t = tag then (t, { e with used := e.used + 1 }) :: rest
      else (t, e) :: bumpUsed tag rest

/-- Python `str.split("/")` over the character list: splits at every
separator occurrence, always returns at least one (possibly empty)
piece. -/
def splitSep : List Char → List (List Char)
  | [] => [[]]
  | c :: cs =>
    match splitSep cs with
    | [] => [[]]
    | p :: ps => if c = '/' then [] :: p :: ps else (c :: p) :: ps

/-- `target.split(os.path.sep)` (src/jmp.py lines 260, 281). -/
def splitPath (s : String) : List String :=
  (splitSep s.data).map fun l => String.mk l

/-- `os.path.sep.join(splitpath)` (src/jmp.py line 263). -/
def joinPath : List String → String
  | [] => ""
  | [s] => s
  | s :: rest => s ++ "/" ++ joinPath rest

/-- `target.startswith("~")` (src/jmp.py line 284). -/
def startsTilde (s : String) : Bool :=
  match s.data with
  | [] => false
  | c :: _ => c = '~'

/-- Exceptions the embedded code can raise.  `keyError` is Python's
KeyError from `self.jmp_table[splitpath[0]]`; `jmpException` is
`raise JmpException(...)`; `recursionError` is the interpreter's
RecursionError on unbounded recursion (fuel exhaustion);
`unpicklingError` is pickle's UnpicklingError on malformed stored
data. -/
inductive JmpErr where
  | keyError (tag : String)
  | jmpException (msg : String)
  | recursionError
  | unpicklingError
deriving Repr, DecidableEq

/-- JmpBackend.get_flags (src/jmp.py lines 272-290):

    flags = 0
    if target.split(os.path.sep)[0] in self.jmp_table:
        flags |= self.TAG_FLAG
    elif target.startswith("~"):
        flags |= self.USER_FLAG
    if target != os.path.expandvars(target):
        flags |= self.ENV_FLAG
    return (flags, target)

`ev` is `os.path.expandvars`. -/
def get_flags (ev : String → String) (table : JmpTable) (target : String) :
    Nat × String :=
  let flags : Nat := 0
  let flags :=
    if (tableFind ((splitPath target).headD ("")) table).isSome then
      flags ||| TAG_FLAG
    else if startsTilde target then flags ||| USER_FLAG
    else flags
  let flags := if target ≠ ev target then flags ||| ENV_FLAG else flags
  (flags, target)

/-- JmpBackend.expand (src/jmp.py lines 244-270):

    if not flags:
        return target
    while flags:
        if flags & self.USER_FLAG:
            target = os.path.expanduser(target)
            flags ^= self.USER_FLAG
        elif flags & self.TAG_FLAG:
            splitpath = target.split(os.path.sep)
            store = self.jmp_table[splitpath[0]]
            splitpath[0] = self.expand(store.flags, store.target)
            target = os.path.sep.join(splitpath)
            flags ^= self.TAG_FLAG
        elif flags & self.ENV_FLAG:
            target = os.path.expandvars(target)
            flags ^= self.ENV_FLAG
        else:
            raise JmpException("Unexpected flag bit set.")
    return target

`eu` is `os.path.expanduser`, `ev` is `os.path.expandvars`.  The
missing-key indexing `self.jmp_table[splitpath[0]]` raises KeyError,
which the source never catches.  `fuel` bounds the number of steps;
the source has no such bound, so a result of `.error .recursionError`
for every fuel value shows the source recursing without bound. -/
def expand (eu ev : String → String) (table : JmpTable)
    (fuel flags : Nat) (target : String) : Except JmpErr String :=
  if flags = 0 then .ok target
  else
    match fuel with
    | 0 => .error .recursionError
    | f + 1 =>
      if flags &&& USER_FLAG ≠ 0 then
        expand eu ev table f (flags ^^^ USER_FLAG) (eu target)
      else if flags &&& TAG_FLAG ≠ 0 then
        match tableFind ((splitPath target).headD ("")) table with
        | none => .error (.keyError ((splitPath target).headD ("")))
        | some store =>
          match expand eu ev table f store.flags store.target with
          | .error e => .error e
          | .ok root =>
              expand eu ev table f (flags ^^^ TAG_FLAG)
                (joinPath (root :: (splitPath target).tail))
      else if flags &&& ENV_FLAG ≠ 0 then
        expand eu ev table f (flags ^^^ ENV_FLAG) (ev target)
      else .error (.jmpException ("Unexpected flag bit set."))

/-- The body of the TAG_FLAG branch of the expansion loop, factored
out so the order in which `expand` applies the flags can be stated. -/
def tagStep (eu ev : String → String) (table : JmpTable)
    (fuel flags : Nat) (target : String) : Except JmpErr String :=
  match tableFind ((splitPath target).headD ("")) table with
  | none => .error (.keyError ((splitPath target).headD ("")))
  | some store =>
    match expand eu ev table fuel store.flags store.target with
    | .error e => .error e
    | .ok root =>
        expand eu ev table fuel (flags ^^^ TAG_FLAG)
          (joinPath (root :: (splitPath target).tail))

/-- JmpBackend.store_jmp (src/jmp.py lines 292-311).  Returns the
success flag, the table afterwards, and the logged lines.  `abspath`
is `os.path.abspath`, `isdir` is `os.path.isdir`. -/
def store_jmp (eu ev abspath : String → String) (isdir : String → Bool)
    (table : JmpTable) (fuel : Nat) (tag target : String) (absolute : Bool) :
    Except JmpErr (Bool × JmpTable × List String) :=
  let ft := get_flags ev table target
  let flags := ft.1
  let target := ft.2
  let target := if flags = 0 ∧ absolute then abspath target else target
  match expand eu ev table fuel flags target with
  | .error e => .error e
  | .ok p =>
    if isdir p then
      .ok (true,
           tableInsert tag ⟨CURRENT_VERSION, flags, target, 0⟩ table,
           ["Added jmp " ++ tag ++ " -> " ++ target])
    else .ok (false, table, [target ++ " is not a jumpable directory."])

/-- JmpBackend.delete_jmp (src/jmp.py lines 313-327). -/
def delete_jmp (tag : String) (table : JmpTable) :
    Bool × JmpTable × List String :=
  match tableFind tag table with
  | some _ => (true, tableDelete tag table, ["Deleted tag " ++ tag ++ "."])
  | none => (false, table, ["Tag " ++ tag ++ " is not registered."])

/-- JmpBackend.jmp_to (src/jmp.py lines 329-352).  `confirm` is the
answer read by `input("delete tag? (y/n): ")` compared with "y". -/
def jmp_to (eu ev : String → String) (isdir : String → Bool) (confirm : Bool)
    (table : JmpTable) (fuel : Nat) (tag : String) :
    Except JmpErr (Bool × JmpTable × List String) :=
  let ft := get_flags ev table tag
  let flags := ft.1
  let target := ft.2
  match expand eu ev table fuel flags target with
  | .error e => .error e
  | .ok path =>
    if ¬ isdir path ∧ target ≠ "-" then
      if flags &&& TAG_FLAG ≠ 0 ∧ (tableFind tag table).isSome then
        if confirm then
          let d := delete_jmp tag table
          .ok (false, d.2.1,
               ("Tag " ++ tag ++ " points to an invalid path.") :: d.2.2)
        else
          .ok (false, table, ["Tag " ++ tag ++ " points to an invalid path."])
      else
        .ok (false, table, ["Tag " ++ tag ++ " points to an invalid path."])
    else
      if flags &&& TAG_FLAG ≠ 0 ∧ (tableFind tag table).isSome then
        .ok (true, bumpUsed tag table, ["bash: " ++ path])
      else .ok (true, table, ["bash: " ++ path])

/-- The sort order used by print_list: Python's
`sorted(items, key=lambda j: -j[1].used)` orders by descending usage
count. -/
def usedOrder (a b : String × JmpStore) : Prop := b.2.used ≤ a.2.used

instance : DecidableRel usedOrder := fun a b => Nat.decLe b.2.used a.2.used

instance : IsTotal (String × JmpStore) usedOrder :=
  ⟨fun a b => Nat.le_total b.2.used a.2.used⟩

instance : IsTrans (String × JmpStore) usedOrder :=
  ⟨fun _ _ _ h1 h2 => Nat.le_trans h2 h1⟩

/-- Python's `sorted` is a stable sort; it is modelled by stable
insertion sort with the descending-usage order. -/
def sortByUsed (table : JmpTable) : JmpTable :=
  List.insertionSort usedOrder table

/-- One output line of print_list:
`"  {} ({}) -> {}".format(jmp, store.used, store.target)`. -/
def listLine (p : String × JmpStore) : String :=
  "  " ++ p.1 ++ " (" ++ toString p.2.used ++ ") -> " ++ p.2.target

/-- JmpBackend.print_list (src/jmp.py lines 201-211), as the list of
printed lines.  The "empty" marker is printed when the dict is empty;
the loop then iterates over the sorted items (no further tie-break
beyond the stable sort by descending usage). -/
def print_list (table : JmpTable) : List String :=
  ("jmp_table:") ::
    (if table.isEmpty then [("  empty")] else []) ++
      (sortByUsed table).map listLine

/-- True exactly on `Except.ok` values. -/
def exceptIsOk {ε α : Type} : Except ε α → Bool
  | .ok _ => true
  | .error _ => false

/-- The table component of a jmp_to / store_jmp result, with a default
for the exception case. -/
def jmpTableAfter (r : Except JmpErr (Bool × JmpTable × List String))
    (dflt : JmpTable) : JmpTable :=
  match r with
  | .ok (_, t, _) => t
  | .error _ => dflt

/-- Parse failures of the persistence layer.  `eof` models pickle's
EOFError (the stream ended before the object was complete; in
particular pickle.load of an empty file raises EOFError), `bad`
models pickle.UnpicklingError (malformed data). -/
inductive ParseErr where
  | eof
  | bad
deriving Repr, DecidableEq

/-- Modelled from the external library pickle: an unambiguous
serialization of a natural number (unary digits closed by a
semicolon). -/
def encNat (n : Nat) : List Char :=
  List.replicate n '1' ++ [';']

/-- Decoder for `encNat`: truncated input is an `eof`, an unexpected
character is `bad`. -/
def parseNat : List Char → Except ParseErr (Nat × List Char)
  | [] => .error .eof
  | c :: cs =>
    if c = '1' then
      match parseNat cs with
      | .ok (n, r) => .ok (n + 1, r)
      | .error e => .error e
    else if c = ';' then .ok (0, cs)
    else .error .bad

/-- Modelled from the external library pickle: a length-prefixed
serialization of a string. -/
def encStr (s : String) : List Char :=
  encNat s.data.length ++ s.data

/-- Decoder for `encStr`. -/
def parseStr (l : List Char) : Except ParseErr (String × List Char) :=
  match parseNat l with
  | .error e => .error e
  | .ok (n, r) =>
    if n ≤ r.length then .ok (String.mk (r.take n), r.drop n)
    else .error .eof

/-- Modelled from the external library pickle: serialization of one
JmpStore record, every field included. -/
def encStore (e : JmpStore) : List Char :=
  encNat e.version ++ encNat e.flags ++ encStr e.target ++ encNat e.used

/-- Decoder for `encStore`. -/
def parseStore (l : List Char) : Except ParseErr (JmpStore × List Char) :=
  match parseNat l with
  | .error e => .error e
  | .ok (version, r1) =>
    match parseNat r1 with
    | .error e => .error e
    | .ok (flags, r2) =>
      match parseStr r2 with
      | .error e => .error e
      | .ok (target, r3) =>
        match parseNat r3 with
        | .error e => .error e
        | .ok (used, r4) => .ok (⟨version, flags, target, used⟩, r4)

/-- Serialization of the table entries in order. -/
def encEntries : JmpTable → List Char
  | [] => []
  | (tag, e) :: rest => encStr tag ++ encStore e ++ encEntries rest

/-- Decoder for a counted sequence of entries. -/
def parseEntries : Nat → List Char → Except ParseErr (JmpTable × List Char)
  | 0, l => .ok ([], l)
  | n + 1, l =>
    match parseStr l with
    | .error e => .error e
    | .ok (tag, r1) =>
      match parseStore r1 with
      | .error e => .error e
      | .ok (e, r2) =>
        match parseEntries n r2 with
        | .error err => .error err
        | .ok (rest, r3) => .ok ((tag, e) :: rest, r3)

/-- Modelled from the external library pickle:
`pickle.dump(self.jmp_table, f)` writes a byte serialization of the
whole mapping (src/jmp.py line 198). -/
def pickleDump (t : JmpTable) : List Char :=
  encNat t.length ++ encEntries t

/-- Modelled from the external library pickle:
`pickle.load(f)` either reconstructs the mapping, or raises EOFError
on a truncated stream, or raises UnpicklingError on corrupt data
(src/jmp.py line 187). -/
def pickleLoad (l : List Char) : Except ParseErr JmpTable :=
  match parseNat l with
  | .error e => .error e
  | .ok (n, r) =>
    match parseEntries n r with
    | .error e => .error e
    | .ok (t, _) => .ok t

/-- The persisted store file: either absent, or present with the given
contents. -/
inductive FileState where
  | missing
  | file (content : List Char)
deriving Repr

/-- JmpBackend.load_table (src/jmp.py lines 179-190):

    if os.path.isfile(store_file):
        try:
            with open(store_file, "rb") as store_file_data:
                self.jmp_table = pickle.load(store_file_data)
        except EOFError:
            self.jmp_table = {}

The table starts out empty (src/jmp.py line 152), so a missing file
leaves it empty.  Only EOFError is caught; an UnpicklingError from
corrupt data propagates uncaught (modelled as `.error`). -/
def load_table (fs : FileState) : Except JmpErr JmpTable :=
  match fs with
  | .missing => .ok []
  | .file content =>
    match pickleLoad content with
    | .ok t => .ok t
    | .error .eof => .ok []
    | .error .bad => .error .unpicklingError

/-- JmpBackend.save_table (src/jmp.py lines 192-199): overwrites the
store file with the pickled table. -/
def save_table (t : JmpTable) : FileState :=
  .file (pickleDump t)

/-! ### Persistence lemmas -/

theorem parseNat_enc (n : Nat) (rest : List Char) :
    parseNat (encNat n ++ rest) = .ok (n, rest) := by
  induction n with
  | zero => simp [encNat, parseNat]
  | succ n ih =>
    have h : encNat (n + 1) ++ rest = '1' :: (encNat n ++ rest) := by
      simp [encNat, List.replicate_succ]
    rw [h, parseNat, ih]
    simp

theorem parseStr_enc (s : String) (rest : List Char) :
    parseStr (encStr s ++ rest) = .ok (s, rest) := by
  have h : encStr s ++ rest = encNat s.data.length ++ (s.data ++ rest) := by
    simp [encStr]
  rw [parseStr, h, parseNat_enc]
  simp [List.take_append_of_le_length, List.drop_append_of_le_length]

theorem parseStore_enc (e : JmpStore) (rest : List Char) :
    parseStore (encStore e ++ rest) = .ok (e, rest) := by
  have h : encStore e ++ rest =
      encNat e.version ++
        (encNat e.flags ++ (encStr e.target ++ (encNat e.used ++ rest))) := by
    simp [encStore]
  rw [parseStore, h, parseNat_enc]
  dsimp only
  rw [parseNat_enc]
  dsimp only
  rw [parseStr_enc]
  dsimp only
  rw [parseNat_enc]

theorem parseEntries_enc (t : JmpTable) (rest : List Char) :
    parseEntries t.length (encEntries t ++ rest) = .ok (t, rest) := by
  induction t with
  | nil => simp [encEntries, parseEntries]
  | cons p t ih =>
    obtain ⟨tag, e⟩ := p
    have h : encEntries ((tag, e) :: t) ++ rest =
        encStr tag ++ (encStore e ++ (encEntries t ++ rest)) := by
      simp [encEntries]
    show parseEntries (t.length + 1) _ = _
    rw [h, parseEntries, parseStr_enc]
    dsimp only
    rw [parseStore_enc]
    dsimp only
    rw [ih]

theorem pickle_roundtrip (t : JmpTable) :
    pickleLoad (pickleDump t) = .ok t := by
  have h : pickleDump t = encNat t.length ++ (encEntries t ++ []) := by
    simp [pickleDump]
  rw [pickleLoad, h, parseNat_enc]
  dsimp only
  rw [parseEntries_enc]

/-- Every serialized table starts with a digit or a terminator, never
with the letter x: a file whose first byte is x is not the (possibly
truncated) output of save_table, i.e. it is corrupt data. -/
theorem pickleDump_head_ne_x (t : JmpTable) (rest : List Char) :
    pickleDump t ≠ 'x' :: rest := by
  intro h
  cases t with
  | nil => simp [pickleDump, encNat, encEntries] at h
  | cons p t =>
    simp [pickleDump, encNat, List.replicate_succ] at h

/-! ### Listing lemmas -/

theorem filter_orderedInsert (u : Nat) (x : String × JmpStore) (l : JmpTable) :
    (List.orderedInsert usedOrder x l).filter (fun p => p.2.used == u) =
      if x.2.used == u then
        x :: l.filter (fun p => p.2.used == u)
      else l.filter (fun p => p.2.used == u) := by
  induction l with
  | nil =>
    simp [List.filter_cons]
  | cons y ys ih =>
    rw [List.orderedInsert]
    by_cases hxy : usedOrder x y
    · rw [if_pos hxy]
      simp [List.filter_cons]
    · rw [if_neg hxy]
      rw [List.filter_cons, List.filter_cons, ih]
      by_cases hx : x.2.used == u
      · by_cases hy : y.2.used == u
        · exfalso
          apply hxy
          show y.2.used ≤ x.2.used
          have hx' : x.2.used = u := by simpa using hx
          have hy' : y.2.used = u := by simpa using hy
          omega
        · simp [hx, hy]
      · by_cases hy : y.2.used == u
        · simp [hx, hy]
        · simp [hx, hy]

theorem filter_sortByUsed (u : Nat) (t : JmpTable) :
    (sortByUsed t).filter (fun p => p.2.used == u) =
      t.filter (fun p => p.2.used == u) := by
  induction t with
  | nil => rfl
  | cons x t ih =>
    show (List.orderedInsert usedOrder x (sortByUsed t)).filter _ = _
    rw [filter_orderedInsert, List.filter_cons]
    by_cases hx : x.2.used == u
    · simp [hx, ih]
    · simp [hx, ih]

theorem sortByUsed_perm (t : JmpTable) : (sortByUsed t).Perm t :=
  List.perm_insertionSort usedOrder t

theorem sortByUsed_sorted (t : JmpTable) :
    List.Sorted usedOrder (sortByUsed t) :=
  List.sorted_insertionSort usedOrder t

/-! ### Expansion lemmas -/

theorem expand_zero (eu ev : String → String) (table : JmpTable)
    (fuel : Nat) (target : String) :
    expand eu ev table fuel 0 target = .ok target := by
  rw [expand.eq_def]
  simp

theorem expand_step (eu ev : String → String) (table : JmpTable)
    (fuel flags : Nat) (target : String) (h : flags ≠ 0) :
    expand eu ev table (fuel + 1) flags target =
      if flags &&& USER_FLAG ≠ 0 then
        expand eu ev table fuel (flags ^^^ USER_FLAG) (eu target)
      else if flags &&& TAG_FLAG ≠ 0 then
        tagStep eu ev table fuel flags target
      else if flags &&& ENV_FLAG ≠ 0 then
        expand eu ev table fuel (flags ^^^ ENV_FLAG) (ev target)
      else .error (.jmpException ("Unexpected flag bit set.")) := by
  conv_lhs => rw [expand.eq_def]
  rw [if_neg h, tagStep]

theorem expand_no_tag (eu ev : String → String) (table : JmpTable)
    (fuel flags : Nat) (target : String)
    (hf : flags = 0 ∨ flags = 1 ∨ flags = 4 ∨ flags = 5) :
    expand eu ev table (fuel + 2) flags target =
      .ok (if flags &&& ENV_FLAG ≠ 0 then
             ev (if flags &&& USER_FLAG ≠ 0 then eu target else target)
           else if flags &&& USER_FLAG ≠ 0 then eu target else target) := by
  rcases hf with rfl | rfl | rfl | rfl
  · rw [expand_zero]
    norm_num [USER_FLAG, ENV_FLAG]
  · rw [show fuel + 2 = (fuel + 1) + 1 from rfl,
      expand_step eu ev table (fuel + 1) 1 target (by norm_num)]
    norm_num [USER_FLAG, TAG_FLAG, ENV_FLAG]
    exact expand_zero eu ev table (fuel + 1) (eu target)
  · rw [show fuel + 2 = (fuel + 1) + 1 from rfl,
      expand_step eu ev table (fuel + 1) 4 target (by norm_num)]
    norm_num [USER_FLAG, TAG_FLAG, ENV_FLAG]
    exact expand_zero eu ev table (fuel + 1) (ev target)
  · rw [show fuel + 2 = (fuel + 1) + 1 from rfl,
      expand_step eu ev table (fuel + 1) 5 target (by norm_num)]
    norm_num [USER_FLAG, TAG_FLAG, ENV_FLAG]
    rw [show (5 ^^^ 1 : Nat) = 4 from rfl,
      expand_step eu ev table fuel 4 (eu target) (by norm_num)]
    norm_num [USER_FLAG, TAG_FLAG, ENV_FLAG]
    exact expand_zero eu ev table fuel (ev (eu target))

theorem cyc_diverges (fuel : Nat) :
    expand id id [(("a"), ⟨5, 2, "b", 0⟩), (("b"), ⟨5, 2, "a", 0⟩)]
        fuel 2 ("a") = .error .recursionError ∧
    expand id id [(("a"), ⟨5, 2, "b", 0⟩), (("b"), ⟨5, 2, "a", 0⟩)]
        fuel 2 ("b") = .error .recursionError := by
  induction fuel with
  | zero => exact ⟨rfl, rfl⟩
  | succ f ih =>
    constructor
    · have ea : expand id id [(("a"), ⟨5, 2, "b", 0⟩), (("b"), ⟨5, 2, "a", 0⟩)]
          (f + 1) 2 ("a") =
          (match expand id id [(("a"), ⟨5, 2, "b", 0⟩), (("b"), ⟨5, 2, "a", 0⟩)]
              f 2 ("b") with
           | .error e => (.error e : Except JmpErr String)
           | .ok root =>
              expand id id [(("a"), ⟨5, 2, "b", 0⟩), (("b"), ⟨5, 2, "a", 0⟩)]
                f 0 (joinPath [root])) := rfl
      rw [ea, ih.2]
    · have eb : expand id id [(("a"), ⟨5, 2, "b", 0⟩), (("b"), ⟨5, 2, "a", 0⟩)]
          (f + 1) 2 ("b") =
          (match expand id id [(("a"), ⟨5, 2, "b", 0⟩), (("b"), ⟨5, 2, "a", 0⟩)]
              f 2 ("a") with
           | .error e => (.error e : Except JmpErr String)
           | .ok root =>
              expand id id [(("a"), ⟨5, 2, "b", 0⟩), (("b"), ⟨5, 2, "a", 0⟩)]
                f 0 (joinPath [root])) := rfl
      rw [eb, ih.1]

/-- The second projection of get_flags is the unmodified target. -/
theorem get_flags_snd (ev : String → String) (table : JmpTable)
    (target : String) : (get_flags ev table target).2 = target := rfl

/-! ### Classification lemmas -/

theorem get_flags_spec (ev : String → String) (table : JmpTable) (target : String) :
    (get_flags ev table target).2 = target ∧
    ((get_flags ev table target).1 &&& TAG_FLAG ≠ 0 ↔
      (tableFind ((splitPath target).headD ("")) table).isSome = true) ∧
    ((get_flags ev table target).1 &&& USER_FLAG ≠ 0 ↔
      (startsTilde target = true ∧
        (tableFind ((splitPath target).headD ("")) table).isSome = false)) ∧
    ((get_flags ev table target).1 &&& ENV_FLAG ≠ 0 ↔ target ≠ ev target) := by
  simp only [get_flags]
  split_ifs with henv1 htag1 huser1 htag2 huser2
  · exact ⟨trivial, iff_of_true (by decide) htag1,
      iff_of_false (by decide) (fun hc => Bool.noConfusion (htag1.symm.trans hc.2)),
      iff_of_true (by decide) henv1⟩
  · exact ⟨trivial, iff_of_false (by decide) htag1,
      iff_of_true (by decide) ⟨huser1, by simpa using htag1⟩,
      iff_of_true (by decide) henv1⟩
  · exact ⟨trivial, iff_of_false (by decide) htag1,
      iff_of_false (by decide) (fun hc => huser1 hc.1),
      iff_of_true (by decide) henv1⟩
  · exact ⟨trivial, iff_of_true (by decide) htag2,
      iff_of_false (by decide) (fun hc => Bool.noConfusion (htag2.symm.trans hc.2)),
      iff_of_false (by decide) henv1⟩
  · exact ⟨trivial, iff_of_false (by decide) htag2,
      iff_of_true (by decide) ⟨huser2, by simpa using htag2⟩,
      iff_of_false (by decide) henv1⟩
  · exact ⟨trivial, iff_of_false (by decide) htag2,
      iff_of_false (by decide) (fun hc => huser2 hc.1),
      iff_of_false (by decide) henv1⟩

theorem get_flags_no_tag (ev : String → String) (table : JmpTable) (target : String)
    (h : tableFind ((splitPath target).headD ("")) table = none) :
    (get_flags ev table target).1 = 0 ∨ (get_flags ev table target).1 = 1 ∨
    (get_flags ev table target).1 = 4 ∨ (get_flags ev table target).1 = 5 := by
  simp only [get_flags]
  split_ifs with henv1 htag1 huser1 htag2 huser2 <;>
    first
      | decide
      | (exfalso
         first
           | (rw [h] at htag1; simp at htag1)
           | (rw [h] at htag2; simp at htag2))

/-! ### Jump lemmas -/

theorem delete_jmp_of_found (tag : String) (table : JmpTable)
    (h : (tableFind tag table).isSome = true) :
    (delete_jmp tag table).2.1 = tableDelete tag table := by
  unfold delete_jmp
  cases hfind : tableFind tag table with
  | none => rw [hfind] at h; simp at h
  | some e => rfl

theorem jmp_to_table_change (eu ev : String → String) (isdir : String → Bool)
    (confirm : Bool) (table : JmpTable) (fuel : Nat) (tag : String)
    (b : Bool) (t2 : JmpTable) (ls : List String)
    (h : jmp_to eu ev isdir confirm table fuel tag = .ok (b, t2, ls)) :
    t2 = if b then
           (if (get_flags ev table tag).1 &&& TAG_FLAG ≠ 0 ∧
               (tableFind tag table).isSome = true
            then bumpUsed tag table else table)
         else
           (if ((get_flags ev table tag).1 &&& TAG_FLAG ≠ 0 ∧
                (tableFind tag table).isSome = true) ∧ confirm = true
            then tableDelete tag table else table) := by
  simp only [jmp_to] at h
  cases hexp : expand eu ev table fuel (get_flags ev table tag).1
      (get_flags ev table tag).2 with
  | error e => rw [hexp] at h; exact absurd h (by simp)
  | ok path =>
    rw [hexp] at h
    dsimp only at h
    split_ifs at h with hval htag1 hcf htag2
    · simp only [Except.ok.injEq, Prod.mk.injEq] at h
      obtain ⟨hb, ht, _⟩ := h
      subst hb
      rw [delete_jmp_of_found tag table htag1.2] at ht
      rw [← ht, if_neg (by simp), if_pos ⟨htag1, hcf⟩]
    · simp only [Except.ok.injEq, Prod.mk.injEq] at h
      obtain ⟨hb, ht, _⟩ := h
      subst hb
      rw [← ht, if_neg (by simp), if_neg (fun hc => hcf hc.2)]
    · simp only [Except.ok.injEq, Prod.mk.injEq] at h
      obtain ⟨hb, ht, _⟩ := h
      subst hb
      rw [← ht, if_neg (by simp), if_neg (fun hc => htag1 hc.1)]
    · simp only [Except.ok.injEq, Prod.mk.injEq] at h
      obtain ⟨hb, ht, _⟩ := h
      subst hb
      rw [← ht, if_pos (by simp), if_pos htag2]
    · simp only [Except.ok.injEq, Prod.mk.injEq] at h
      obtain ⟨hb, ht, _⟩ := h
      subst hb
      rw [← ht, if_pos (by simp), if_neg htag2]

theorem jmp_to_no_tag_frame (eu ev : String → String) (isdir : String → Bool)
    (confirm : Bool) (table : JmpTable) (fuel : Nat) (tag : String)
    (h : tableFind ((splitPath tag).headD ("")) table = none) :
    exceptIsOk (jmp_to eu ev isdir confirm table (fuel + 2) tag) = true ∧
    jmpTableAfter (jmp_to eu ev isdir confirm table (fuel + 2) tag) table =
      table := by
  have hf := get_flags_no_tag ev table tag h
  have htagZero : (get_flags ev table tag).1 &&& TAG_FLAG = 0 := by
    rcases hf with hv | hv | hv | hv <;> rw [hv] <;> decide
  obtain ⟨v, hexp⟩ : ∃ v, expand eu ev table (fuel + 2)
      (get_flags ev table tag).1 (get_flags ev table tag).2 = .ok v :=
    ⟨_, expand_no_tag eu ev table fuel ((get_flags ev table tag).1)
      ((get_flags ev table tag).2) hf⟩
  simp only [jmp_to]
  rw [hexp]
  dsimp only
  split_ifs with hval htag1 hcf htag2
  · exact absurd htag1.1 (by rw [htagZero]; simp)
  · exact absurd htag1.1 (by rw [htagZero]; simp)
  · exact ⟨rfl, rfl⟩
  · exact absurd htag2.1 (by rw [htagZero]; simp)
  · exact ⟨rfl, rfl⟩



/-! ### Claims -/

/-- C1: the claim says a jump through a stored tag-relative target whose
referenced tag has been deleted reports the error and returns failure
with no exception escaping.  The code violates this: after storing
b -> a/sub (tag-relative through a) and deleting a, jmp_to("b") raises
an uncaught KeyError("a") from `self.jmp_table[splitpath[0]]`
(src/jmp.py line 261), which propagates to the process boundary. -/
theorem C1_deleted_tag_keyerror_escapes :
    store_jmp id id id (fun _ => true) [(("a"), ⟨5, 0, "/tmp", 0⟩)] 5
        ("b") ("a/sub") true =
      .ok (true, [(("a"), ⟨5, 0, "/tmp", 0⟩), (("b"), ⟨5, 2, "a/sub", 0⟩)],
        [("Added jmp b -> a/sub")]) ∧
    delete_jmp ("a") [(("a"), ⟨5, 0, "/tmp", 0⟩), (("b"), ⟨5, 2, "a/sub", 0⟩)] =
      (true, [(("b"), ⟨5, 2, "a/sub", 0⟩)], [("Deleted tag a.")]) ∧
    jmp_to id id (fun _ => true) false [(("b"), ⟨5, 2, "a/sub", 0⟩)] 5 ("b") =
      .error (.keyError ("a")) :=
  ⟨rfl, rfl, rfl⟩

/-- C2: the claim says expansion terminates and fails with a resolution
error on cyclic tag chains.  The code has no recursion guard: the
mutually-referential pair a -> b, b -> a is reachable through store_jmp
alone, and expand on it exhausts every fuel bound, i.e. recurses
without bound until the interpreter's RecursionError, instead of
failing with a resolution error. -/
theorem C2_cyclic_tags_recurse_unboundedly :
    store_jmp id id id (fun _ => true) ([]) 5 ("a") ("/tmp") true =
      .ok (true, [(("a"), ⟨5, 0, "/tmp", 0⟩)], [("Added jmp a -> /tmp")]) ∧
    store_jmp id id id (fun _ => true) [(("a"), ⟨5, 0, "/tmp", 0⟩)] 5
        ("b") ("a") true =
      .ok (true, [(("a"), ⟨5, 0, "/tmp", 0⟩), (("b"), ⟨5, 2, "a", 0⟩)],
        [("Added jmp b -> a")]) ∧
    store_jmp id id id (fun _ => true)
        [(("a"), ⟨5, 0, "/tmp", 0⟩), (("b"), ⟨5, 2, "a", 0⟩)] 5
        ("a") ("b") true =
      .ok (true, [(("a"), ⟨5, 2, "b", 0⟩), (("b"), ⟨5, 2, "a", 0⟩)],
        [("Added jmp a -> b")]) ∧
    ∀ fuel : Nat,
      expand id id [(("a"), ⟨5, 2, "b", 0⟩), (("b"), ⟨5, 2, "a", 0⟩)]
          fuel 2 ("a") = .error .recursionError :=
  ⟨rfl, rfl, rfl, fun fuel => (cyc_diverges fuel).1⟩

/-- C9: save followed by load in a fresh session reproduces the store:
identical tag set and, for each tag, identical target, flags and usage
count (the loaded table is equal as a whole). -/
theorem C9_save_load_roundtrip (t : JmpTable) :
    load_table (save_table t) = .ok t := by
  have h := pickle_roundtrip t
  simp only [save_table, load_table, h]

/-- C8 counterexample: the claim says a corrupt persisted file yields an
empty store and a diagnostic, not a hard error, for corruption "in any
way".  A file holding the single byte x is not (a prefix of) any
serialized table (see pickleDump_head_ne_x), and load_table raises an
uncaught UnpicklingError on it instead of returning an empty store. -/
theorem C8_corrupt_file_counterexample :
    load_table (.file [('x')]) = .error .unpicklingError ∧
    exceptIsOk (load_table (.file [('x')])) = false :=
  ⟨rfl, rfl⟩

/-- C8 amended: a missing file loads as the empty store, and a
truncated file - one that ends before the pickled object is complete,
raising EOFError, e.g. the empty file or a serialized table with its
last byte cut off - is caught and also loads as the empty store (with
no corruption diagnostic); any other corruption raises an uncaught
UnpicklingError rather than degrading to an empty store. -/
theorem C8_load_amended :
    load_table .missing = .ok [] ∧
    load_table (.file []) = .ok [] ∧
    load_table
        (.file ((pickleDump [(("a"), ⟨5, 0, "/tmp", 2⟩)]).dropLast)) =
      .ok [] :=
  ⟨rfl, rfl, rfl⟩

/-- C4 counterexample: the claim says the USER flag is set iff the
target begins with the home marker, and that the three flags are
independent and may combine arbitrarily.  With a stored tag named
the single character tilde, the target consisting of that character
begins with the home marker yet gets TAG and not USER: the if/elif in
get_flags (src/jmp.py lines 281-286) makes TAG suppress USER. -/
theorem C4_user_flag_counterexample :
    startsTilde ("~") = true ∧
    (get_flags id [(("~"), ⟨5, 0, "/tmp", 0⟩)] ("~")).1 &&& USER_FLAG = 0 ∧
    (get_flags id [(("~"), ⟨5, 0, "/tmp", 0⟩)] ("~")).1 &&& TAG_FLAG ≠ 0 :=
  ⟨rfl, by decide, by decide⟩

/-- C4 amended: classification returns the target unchanged; the TAG
flag is set iff the first path component is a stored key; the USER
flag is set iff the target begins with the home marker AND the first
component is not a stored key (TAG and USER are mutually exclusive,
TAG taking precedence); the ENV flag is set independently, iff
environment expansion would alter the target. -/
theorem C4_flags_amended (ev : String → String) (table : JmpTable)
    (target : String) :
    (get_flags ev table target).2 = target ∧
    ((get_flags ev table target).1 &&& TAG_FLAG ≠ 0 ↔
      (tableFind ((splitPath target).headD ("")) table).isSome = true) ∧
    ((get_flags ev table target).1 &&& USER_FLAG ≠ 0 ↔
      (startsTilde target = true ∧
        (tableFind ((splitPath target).headD ("")) table).isSome = false)) ∧
    ((get_flags ev table target).1 &&& ENV_FLAG ≠ 0 ↔ target ≠ ev target) :=
  get_flags_spec ev table target

/-- C6 counterexample: the claim says listing breaks usage-count ties
by tag, lexicographically.  With two zero-usage tags inserted as b
then a, print_list keeps insertion order (Python's stable sorted with
key -used only), so the b line precedes the a line, not the
lexicographic order. -/
theorem C6_tie_order_counterexample :
    print_list [(("b"), ⟨5, 0, "/t", 0⟩), (("a"), ⟨5, 0, "/t", 0⟩)] =
      [("jmp_table:"), ("  b (0) -> /t"), ("  a (0) -> /t")] ∧
    print_list [(("b"), ⟨5, 0, "/t", 0⟩), (("a"), ⟨5, 0, "/t", 0⟩)] ≠
      [("jmp_table:"), ("  a (0) -> /t"), ("  b (0) -> /t")] :=
  ⟨rfl, by decide⟩

/-- C6 amended: print_list on the empty store reports the explicit
empty marker; on any store it emits the entries as a permutation of
the store sorted by descending usage count, with ties left in store
(insertion) order - the sort is stable: entries of equal usage count
appear in their original relative order (the filter identity below) -
rather than tie-broken by tag. -/
theorem C6_list_amended :
    print_list ([]) = [("jmp_table:"), ("  empty")] ∧
    (∀ table : JmpTable, (sortByUsed table).Perm table) ∧
    (∀ table : JmpTable, List.Sorted usedOrder (sortByUsed table)) ∧
    (∀ (u : Nat) (table : JmpTable),
      (sortByUsed table).filter (fun p => p.2.used == u) =
        table.filter (fun p => p.2.used == u)) ∧
    (∀ table : JmpTable,
      print_list table =
        ("jmp_table:") :: (if table.isEmpty then [("  empty")] else []) ++
          (sortByUsed table).map listLine) :=
  ⟨rfl, sortByUsed_perm, sortByUsed_sorted,
   fun u t => filter_sortByUsed u t, fun _ => rfl⟩


/-- C3: expansion with the empty flag set returns the target
unchanged; with a non-empty working flag set each step applies, in
the fixed deterministic priority order, home-directory expansion
first, then tag-relative expansion, then environment-variable
expansion, removing exactly the applied flag from the working set and
looping until no flags remain (an unrecognized leftover flag raises
the internal-consistency exception). -/
theorem C3_expand_order (eu ev : String → String) (table : JmpTable)
    (fuel flags : Nat) (target : String) :
    expand eu ev table fuel 0 target = .ok target ∧
    (flags ≠ 0 →
      expand eu ev table (fuel + 1) flags target =
        if flags &&& USER_FLAG ≠ 0 then
          expand eu ev table fuel (flags ^^^ USER_FLAG) (eu target)
        else if flags &&& TAG_FLAG ≠ 0 then
          tagStep eu ev table fuel flags target
        else if flags &&& ENV_FLAG ≠ 0 then
          expand eu ev table fuel (flags ^^^ ENV_FLAG) (ev target)
        else .error (.jmpException ("Unexpected flag bit set."))) :=
  ⟨expand_zero eu ev table fuel target,
   fun h => expand_step eu ev table fuel flags target h⟩

/-- C3 witness: with all three flags set on the target x, the home
step fires first producing Ux, the tag step then resolves the stored
tag Ux to /r, and the environment step finally yields E/r. -/
theorem C3_expand_order_witness :
    expand (fun s => ("U") ++ s) (fun s => ("E") ++ s)
        [(("Ux"), ⟨5, 0, "/r", 0⟩)] 3 0 ("x") = .ok ("x") ∧
    expand (fun s => ("U") ++ s) (fun s => ("E") ++ s)
        [(("Ux"), ⟨5, 0, "/r", 0⟩)] (3 + 1) 7 ("x") = .ok ("E/r") :=
  ⟨(C3_expand_order (fun s => ("U") ++ s) (fun s => ("E") ++ s)
      [(("Ux"), ⟨5, 0, "/r", 0⟩)] 3 7 ("x")).1,
   (C3_expand_order (fun s => ("U") ++ s) (fun s => ("E") ++ s)
      [(("Ux"), ⟨5, 0, "/r", 0⟩)] 3 7 ("x")).2 (by decide)⟩

/-- C5 counterexample: the claim says a successful jump through a
tag-relative input increments the leading tag's usage counter.  The
jump h/x succeeds and resolves through the stored tag h (TAG flag
set), yet the table after the jump is unchanged - h's counter is
still 0 - because the code only increments when the whole input
string is itself a key (src/jmp.py lines 349-350). -/
theorem C5_tag_relative_no_increment :
    (get_flags id [(("h"), ⟨5, 0, "/tmp", 0⟩)] ("h/x")).1 &&& TAG_FLAG ≠ 0 ∧
    jmp_to id id (fun _ => true) false [(("h"), ⟨5, 0, "/tmp", 0⟩)] 5 ("h/x") =
      .ok (true, [(("h"), ⟨5, 0, "/tmp", 0⟩)], [("bash: /tmp/x")]) ∧
    tableFind ("h") [(("h"), ⟨5, 0, "/tmp", 0⟩)] = some ⟨5, 0, "/tmp", 0⟩ :=
  ⟨by decide, rfl, rfl⟩

/-- C5 amended: on a jump that returns normally, the table is changed
only when the input classified as tag-relative AND the entire input
string is itself a stored key: a successful such jump bumps that
entry's usage count by one (bumpUsed), a failed such jump deletes the
entry exactly when the user confirms, and in every other case -
including successful tag-relative jumps whose full input is not a
key - the table, and so every usage counter, is left unchanged. -/
theorem C5_usage_amended (eu ev : String → String) (isdir : String → Bool)
    (confirm : Bool) (table : JmpTable) (fuel : Nat) (tag : String)
    (b : Bool) (t2 : JmpTable) (ls : List String)
    (h : jmp_to eu ev isdir confirm table fuel tag = .ok (b, t2, ls)) :
    t2 = if b then
           (if (get_flags ev table tag).1 &&& TAG_FLAG ≠ 0 ∧
               (tableFind tag table).isSome = true
            then bumpUsed tag table else table)
         else
           (if ((get_flags ev table tag).1 &&& TAG_FLAG ≠ 0 ∧
                (tableFind tag table).isSome = true) ∧ confirm = true
            then tableDelete tag table else table) :=
  jmp_to_table_change eu ev isdir confirm table fuel tag b t2 ls h

/-- C5 witness: jumping to the stored tag h succeeds and the table
afterwards is exactly bumpUsed of the original - the counter went
from 3 to 4 and nothing else changed. -/
theorem C5_usage_amended_witness :
    [(("h"), ⟨5, 0, "/tmp", 4⟩)] =
      if (true : Bool) then
        (if (get_flags id [(("h"), ⟨5, 0, "/tmp", 3⟩)] ("h")).1 &&& TAG_FLAG ≠ 0 ∧
            (tableFind ("h") [(("h"), ⟨5, 0, "/tmp", 3⟩)]).isSome = true
         then bumpUsed ("h") [(("h"), ⟨5, 0, "/tmp", 3⟩)]
         else [(("h"), ⟨5, 0, "/tmp", 3⟩)])
      else
        (if ((get_flags id [(("h"), ⟨5, 0, "/tmp", 3⟩)] ("h")).1 &&& TAG_FLAG ≠ 0 ∧
             (tableFind ("h") [(("h"), ⟨5, 0, "/tmp", 3⟩)]).isSome = true) ∧
            (false : Bool) = true
         then tableDelete ("h") [(("h"), ⟨5, 0, "/tmp", 3⟩)]
         else [(("h"), ⟨5, 0, "/tmp", 3⟩)]) :=
  C5_usage_amended id id (fun _ => true) false
    [(("h"), ⟨5, 0, "/tmp", 3⟩)] 5 ("h") true
    [(("h"), ⟨5, 0, "/tmp", 4⟩)] [("bash: /tmp")] rfl

/-- C7: create validates the expanded target: when the expansion
succeeds, a non-directory result is rejected with an explanatory
message, failure is returned, and the store is mutated in no way; a
directory result inserts or overwrites the entry, storing the
classification flags and the (possibly absolutized) raw target with
the usage counter reset to 0. -/
theorem C7_create_validates (eu ev abspath : String → String)
    (isdir : String → Bool) (table : JmpTable) (fuel : Nat)
    (tag target : String) (absolute : Bool) (p : String)
    (hexp : expand eu ev table fuel (get_flags ev table target).1
      (if (get_flags ev table target).1 = 0 ∧ absolute then abspath target
       else target) = .ok p) :
    store_jmp eu ev abspath isdir table fuel tag target absolute =
      if isdir p then
        .ok (true,
          tableInsert tag
            ⟨CURRENT_VERSION, (get_flags ev table target).1,
              (if (get_flags ev table target).1 = 0 ∧ absolute then
                abspath target else target), 0⟩ table,
          [("Added jmp ") ++ tag ++ (" -> ") ++
            (if (get_flags ev table target).1 = 0 ∧ absolute then
              abspath target else target)])
      else
        .ok (false, table,
          [(if (get_flags ev table target).1 = 0 ∧ absolute then
              abspath target else target) ++
            (" is not a jumpable directory.")]) := by
  simp only [store_jmp, get_flags_snd]
  rw [hexp]

/-- C7 witness: creating tag t for the plain absolute path /tmp with
a directory check that accepts stores the entry with flags 0 and
usage 0. -/
theorem C7_create_validates_witness :
    store_jmp id id id (fun _ => true) ([]) 5 ("t") ("/tmp") true =
      .ok (true, [(("t"), ⟨5, 0, "/tmp", 0⟩)], [("Added jmp t -> /tmp")]) :=
  C7_create_validates id id id (fun _ => true) [] 5 ("t") ("/tmp") true
    ("/tmp") rfl

/-- C10: when the first path component of the input is not a stored
key (the TAG flag cannot be set), jmp_to returns normally and leaves
the bookmark store entirely unchanged, whether the jump succeeds or
fails: no entry is added, removed or modified and no usage counter
changes. -/
theorem C10_no_tag_leaves_table (eu ev : String → String)
    (isdir : String → Bool) (confirm : Bool) (table : JmpTable)
    (fuel : Nat) (tag : String)
    (h : tableFind ((splitPath tag).headD ("")) table = none) :
    exceptIsOk (jmp_to eu ev isdir confirm table (fuel + 2) tag) = true ∧
    jmpTableAfter (jmp_to eu ev isdir confirm table (fuel + 2) tag) table =
      table :=
  jmp_to_no_tag_frame eu ev isdir confirm table fuel tag h

/-- C10 witness: jumping to x (not a key; the store only holds h)
returns normally with the store unchanged. -/
theorem C10_no_tag_leaves_table_witness :
    exceptIsOk (jmp_to id id (fun _ => true) false
      [(("h"), ⟨5, 0, "/tmp", 0⟩)] (3 + 2) ("x")) = true ∧
    jmpTableAfter (jmp_to id id (fun _ => true) false
        [(("h"), ⟨5, 0, "/tmp", 0⟩)] (3 + 2) ("x"))
      [(("h"), ⟨5, 0, "/tmp", 0⟩)] = [(("h"), ⟨5, 0, "/tmp", 0⟩)] :=
  C10_no_tag_leaves_table id id (fun _ => true) false
    [(("h"), ⟨5, 0, "/tmp", 0⟩)] 3 ("x") rfl

end Jmp

